import Mathlib

/-!
# AVoxelWorld (Plugins/Voxel/Source/Voxel/Private/VoxelWorld.cpp)

A shallow embedding of the actor `AVoxelWorld`, the wrapper that owns the voxel
data store (`FVoxelData`) and the chunk renderer (`FVoxelRender`).

* The actor is a record of its member variables.  Every member function is a
  function from the actor (and its arguments) to `Except Fault` of the result
  and the actor after the call.  A failed `check(...)` and a dereference of a
  null pointer are the two faults.
* Every call the actor makes on a collaborator (the store, the renderer, the
  generator, the log, the engine) is appended, in program order, to the ghost
  field `Calls`.
* The C++ type `float` is the type parameter `F`; `FVoxelMaterial` is the type
  parameter `M`.  The embedded code stores, copies and returns such values and
  writes a few literals, nothing else.
* `FVoxelData`, `FVoxelRender`, `UVoxelWorldGenerator` and `FVoxelWorldSave` are
  declared in headers that are not part of the sources at hand.  The store
  (point reads and writes, dirty marks, scopes, bounds) is modelled from the
  specification; what the specification leaves open
  (`LoadFromSaveAndGetModifiedPositions`, `GetSave`, `GetDepthAt`, `NewObject`)
  is a field of `Engine`, and every theorem holds for every `Engine`.
* Embedded: the constructor, `BeginPlay`, `Tick`, `GetValue`, `GetMaterial`,
  `SetValue`, `SetMaterial`, `GetSave`, `LoadFromSave`, `UpdateChunksAtPosition`,
  `UpdateAll`, `AddInvoker`, `CreateWorld`, `DestroyWorld`, `DestroyInEditor`,
  `IsCreated`, `GetDepthAt`, `IsInWorld`, `GetVoxelSize`, `Size`.  Not embedded:
  the destructor, the editor entry points `PostLoad`, `CreateInEditor` and
  `UpdateVoxelModifiers`, the coordinate conversions and the plain getters.
-/

set_option autoImplicit false

namespace VoxelWorld

/-! ## Data model -/

/-- Integer grid position: three `int32` components, only copied and compared here. -/
structure FIntVector where
  X : Int
  Y : Int
  Z : Int
deriving DecidableEq, Repr

/-- Identity of a reflected class (`UClass*`). -/
structure UClass where
  Name : String
deriving DecidableEq, Repr

/-- The value of `UFlatWorldGenerator::StaticClass()`. -/
def UFlatWorldGenerator.StaticClass : UClass := ⟨"FlatWorldGenerator"⟩

/-- The two ways a member function can abort. -/
inductive Fault where
  | Check (Expr : String)
  | NullDeref (Pointer : String)
deriving DecidableEq, Repr

/-- Verbosity levels used with `UE_LOG` in this file. -/
inductive ELogVerbosity where
  | Error
  | Warning
deriving DecidableEq, Repr

/-- Modelled from the spec: `UVoxelWorldGenerator` (declared in a header that is not
at hand) is the pure function `generate(x, y, z) -> (density, material)` that supplies
the default of every never-written cell, together with the class it is an instance of. -/
structure UVoxelWorldGenerator (F M : Type) where
  Class : UClass
  Generate : Int → Int → Int → F × M

/-- Modelled from the spec: `FVoxelWorldSave` (declared in a header that is not at hand)
is `(Depth, sparse list of (position, density, material) overrides)`. -/
structure FVoxelWorldSave (F M : Type) where
  Depth : Int
  Overrides : List (FIntVector × F × M)

/-- Modelled from the spec: `FVoxelData` (declared in a header that is not at hand) is a
field of side `2^Depth` whose written cells hold `(density, material)` and whose unwritten
cells fall back to the generator.  `Overrides` is the map of written cells (the first entry
of a position is the current one); `Dirty` holds the marks `set` and `setMaterial` leave for
re-meshing, one per written position (which chunks contain a position is the chunk
addressing, not part of the sources at hand); `OpenGets` and `OpenSets` count the read and
write scopes opened by `BeginGet`/`BeginSet` and not yet closed by `EndGet`/`EndSet`. -/
structure FVoxelData (F M : Type) where
  Depth : Int
  WorldGenerator : UVoxelWorldGenerator F M
  Overrides : List (FIntVector × F × M)
  Dirty : List FIntVector
  OpenGets : Nat
  OpenSets : Nat

/-- The renderer keeps the thread counts it is built with; the store it is built on is the
actor's `Data` (see `RenderedData`); everything else it does is observed through the calls
the actor makes on it. -/
structure FVoxelRender where
  MeshThreadCount : Int
  FoliageThreadCount : Int
deriving DecidableEq, Repr

/-- A call of the actor on one of its collaborators. -/
inductive Call (F M : Type) where
  | Log (Verbosity : ELogVerbosity) (Format : String) (Args : List Int)
  | Super_BeginPlay
  | Super_Tick (DeltaTime : F)
  | SetActorScale3D_OneVector
  | NewObject (Class : UClass)
  | Generator_SetVoxelWorld
  | Data_New (Depth : Int)
  | Data_Delete
  | Data_IsInWorld (X Y Z : Int)
  | Data_Size
  | Data_BeginGet
  | Data_GetValueAndMaterial (X Y Z : Int)
  | Data_EndGet
  | Data_BeginSet
  | Data_SetValue (X Y Z : Int) (Value : F)
  | Data_SetMaterial (X Y Z : Int) (Material : M)
  | Data_EndSet
  | Data_GetSave
  | Data_LoadFromSaveAndGetModifiedPositions (Save : FVoxelWorldSave F M) (bReset : Bool)
  | Render_New (MeshThreadCount FoliageThreadCount : Int)
  | Render_Destroy
  | Render_Delete
  | Render_Tick (DeltaTime : F)
  | Render_UpdateChunksAtPosition (Position : FIntVector) (bAsync : Bool)
  | Render_UpdateAll (bAsync : Bool)
  | Render_AddInvoker (Invoker : Nat)
  | Render_ApplyUpdates
  | Render_GetDepthAt (Position : FIntVector)

/-- The member variables of `AVoxelWorld` the embedded functions read or write, and the
ghost field `Calls`. -/
structure AVoxelWorld (F M : Type) where
  NewDepth : Int
  DeletionDelay : F
  bComputeTransitions : Bool
  bIsCreated : Bool
  FoliageFPS : F
  LODUpdateFPS : F
  NewVoxelSize : F
  MeshThreadCount : Int
  FoliageThreadCount : Int
  Render : Option FVoxelRender
  Data : Option (FVoxelData F M)
  InstancedWorldGenerator : Option (UVoxelWorldGenerator F M)
  bComputeCollisions : Bool
  WorldGenerator : UClass
  bReplicates : Bool
  Depth : Int
  VoxelSize : F
  WorldSave : FVoxelWorldSave F M
  Calls : List (Call F M)

/-- What the sources at hand leave open: object instantiation by the engine, the class of
a class object (`WorldGenerator->GetClass()`), the store's save, the store's load (the
written cells after the load and the modified positions in the order a range-for visits
them), the renderer's answer to `GetDepthAt` (a function of the calls made so far), and
the default argument of `CreateWorld` (declared in the header). -/
structure Engine (F M : Type) where
  NewObject : UClass → Option (UVoxelWorldGenerator F M)
  ClassGetClass : UClass → UClass
  LoadFromSaveAndGetModifiedPositions :
    FVoxelData F M → FVoxelWorldSave F M → Bool →
      List (FIntVector × F × M) × List FIntVector
  GetSave : FVoxelData F M → FVoxelWorldSave F M
  GetDepthAt : List (Call F M) → FIntVector → Int
  CreateWorld_bLoadFromSave : Bool

variable {F M : Type}

/-! ## The data store, modelled from the specification -/

namespace FVoxelData

/-- Modelled from the spec: the constructor `FVoxelData(Depth, WorldGenerator)`, a field
without written cells, without dirty marks and without open scopes. -/
def New (Depth : Int) (WorldGenerator : UVoxelWorldGenerator F M) : FVoxelData F M :=
  { Depth := Depth, WorldGenerator := WorldGenerator, Overrides := [], Dirty := [],
    OpenGets := 0, OpenSets := 0 }

/-- Modelled from the spec: `size() -> integer` (edge length = 2^Depth). -/
def Size (d : FVoxelData F M) : Int :=
  2 ^ d.Depth.toNat

/-- Modelled from the spec: `isInBounds(x,y,z)`, the coordinates inside `[0, 2^Depth)`. -/
def IsInWorld (d : FVoxelData F M) (X Y Z : Int) : Bool :=
  decide (0 ≤ X) && decide (X < d.Size) && decide (0 ≤ Y) && decide (Y < d.Size)
    && decide (0 ≤ Z) && decide (Z < d.Size)

/-- The written cell at a position, if there is one. -/
def Find (P : FIntVector) : List (FIntVector × F × M) → Option (F × M)
  | [] => none
  | (Q, c) :: rest => if Q = P then some c else Find P rest

/-- Modelled from the spec: `get(x,y,z) -> (density, material)`; unwritten cells fall back
to the generator. -/
def GetValueAndMaterial (d : FVoxelData F M) (X Y Z : Int) : F × M :=
  match Find ⟨X, Y, Z⟩ d.Overrides with
  | some c => c
  | none => d.WorldGenerator.Generate X Y Z

/-- Modelled from the spec: `set(x,y,z, density)` writes the density of the cell, keeps its
material and marks the containing chunk(s) dirty for re-meshing. -/
def SetValue (d : FVoxelData F M) (X Y Z : Int) (Value : F) : FVoxelData F M :=
  { d with
    Overrides := (⟨X, Y, Z⟩, Value, (d.GetValueAndMaterial X Y Z).2) :: d.Overrides
    Dirty := ⟨X, Y, Z⟩ :: d.Dirty }

/-- Modelled from the spec: `setMaterial(x,y,z, material)` writes the material of the cell,
keeps its density and marks the containing chunk(s) dirty for re-meshing. -/
def SetMaterial (d : FVoxelData F M) (X Y Z : Int) (Material : M) : FVoxelData F M :=
  { d with
    Overrides := (⟨X, Y, Z⟩, (d.GetValueAndMaterial X Y Z).1, Material) :: d.Overrides
    Dirty := ⟨X, Y, Z⟩ :: d.Dirty }

/-- Modelled from the spec: the scoped-read acquisition opens. -/
def BeginGet (d : FVoxelData F M) : FVoxelData F M :=
  { d with OpenGets := d.OpenGets + 1 }

/-- Modelled from the spec: the scoped-read acquisition closes. -/
def EndGet (d : FVoxelData F M) : FVoxelData F M :=
  { d with OpenGets := d.OpenGets - 1 }

/-- Modelled from the spec: the scoped-write acquisition opens. -/
def BeginSet (d : FVoxelData F M) : FVoxelData F M :=
  { d with OpenSets := d.OpenSets + 1 }

/-- Modelled from the spec: the scoped-write acquisition closes. -/
def EndSet (d : FVoxelData F M) : FVoxelData F M :=
  { d with OpenSets := d.OpenSets - 1 }

end FVoxelData

/-! ## The actor -/

/-- Appends one call to the record of calls. -/
def AVoxelWorld.Record (w : AVoxelWorld F M) (c : Call F M) : AVoxelWorld F M :=
  { w with Calls := w.Calls ++ [c] }

/-- The macro `UE_LOG(VoxelLog, Verbosity, TEXT(Format), Args...)`. -/
def UE_LOG (w : AVoxelWorld F M) (Verbosity : ELogVerbosity) (Format : String)
    (Args : List Int) : AVoxelWorld F M :=
  w.Record (.Log Verbosity Format Args)

/-- The constructor `AVoxelWorld::AVoxelWorld()`.  `Depth`, `VoxelSize` and `WorldSave` are
not in its initialiser list; their initial contents are the three arguments. -/
def AVoxelWorld.New [OfScientific F] [OfNat F 15] [OfNat F 10] [OfNat F 100]
    (Depth : Int) (VoxelSize : F) (WorldSave : FVoxelWorldSave F M) : AVoxelWorld F M :=
  { NewDepth := 9
    DeletionDelay := 0.1
    bComputeTransitions := true
    bIsCreated := false
    FoliageFPS := 15
    LODUpdateFPS := 10
    NewVoxelSize := 100
    MeshThreadCount := 4
    FoliageThreadCount := 4
    Render := none
    Data := none
    InstancedWorldGenerator := none
    bComputeCollisions := false
    WorldGenerator := UFlatWorldGenerator.StaticClass
    bReplicates := true
    Depth := Depth
    VoxelSize := VoxelSize
    WorldSave := WorldSave
    Calls := [] }

/-- The member function `AVoxelWorld::IsCreated`. -/
def IsCreated (w : AVoxelWorld F M) : Bool :=
  w.bIsCreated

/-- A call `Data->f(...)` that changes the store by `f` and is recorded as `c`. -/
def OnData (w : AVoxelWorld F M) (f : FVoxelData F M → FVoxelData F M) (c : Call F M) :
    Except Fault (AVoxelWorld F M) :=
  match w.Data with
  | none => .error (.NullDeref "Data")
  | some d => .ok { w with Data := some (f d), Calls := w.Calls ++ [c] }

/-- A call `Data->f(...)` that reads the store by `f` and is recorded as `c`. -/
def AskData {α : Type} (w : AVoxelWorld F M) (f : FVoxelData F M → α) (c : Call F M) :
    Except Fault (α × AVoxelWorld F M) :=
  match w.Data with
  | none => .error (.NullDeref "Data")
  | some d => .ok (f d, w.Record c)

/-- A call `Render->f(...)` recorded as `c`. -/
def OnRender (w : AVoxelWorld F M) (c : Call F M) : Except Fault (AVoxelWorld F M) :=
  match w.Render with
  | none => .error (.NullDeref "Render")
  | some _ => .ok (w.Record c)

/-- The member function `AVoxelWorld::IsInWorld`. -/
def IsInWorld (w : AVoxelWorld F M) (Position : FIntVector) :
    Except Fault (Bool × AVoxelWorld F M) :=
  AskData w (fun d => d.IsInWorld Position.X Position.Y Position.Z)
    (.Data_IsInWorld Position.X Position.Y Position.Z)

/-- The member function `AVoxelWorld::Size`. -/
def Size (w : AVoxelWorld F M) : Except Fault (Int × AVoxelWorld F M) :=
  AskData w (fun d => d.Size) .Data_Size

/-- The member function `AVoxelWorld::GetVoxelSize`. -/
def GetVoxelSize (w : AVoxelWorld F M) : F :=
  w.VoxelSize

/-- The member function `AVoxelWorld::GetValue`. -/
def GetValue [OfNat F 0] (w : AVoxelWorld F M) (Position : FIntVector) :
    Except Fault (F × AVoxelWorld F M) :=
  match IsInWorld w Position with
  | .error e => .error e
  | .ok (true, w) =>
    match OnData w FVoxelData.BeginGet .Data_BeginGet with
    | .error e => .error e
    | .ok w =>
      match AskData w (fun d => d.GetValueAndMaterial Position.X Position.Y Position.Z)
          (.Data_GetValueAndMaterial Position.X Position.Y Position.Z) with
      | .error e => .error e
      | .ok ((Value, _), w) =>
        match OnData w FVoxelData.EndGet .Data_EndGet with
        | .error e => .error e
        | .ok w => .ok (Value, w)
  | .ok (false, w) =>
    .ok (0, UE_LOG w .Error "Get value: Not in world: (%d, %d, %d)"
      [Position.X, Position.Y, Position.Z])

/-- The member function `AVoxelWorld::GetMaterial`. -/
def GetMaterial [Inhabited M] (w : AVoxelWorld F M) (Position : FIntVector) :
    Except Fault (M × AVoxelWorld F M) :=
  match IsInWorld w Position with
  | .error e => .error e
  | .ok (true, w) =>
    match OnData w FVoxelData.BeginGet .Data_BeginGet with
    | .error e => .error e
    | .ok w =>
      match AskData w (fun d => d.GetValueAndMaterial Position.X Position.Y Position.Z)
          (.Data_GetValueAndMaterial Position.X Position.Y Position.Z) with
      | .error e => .error e
      | .ok ((_, Material), w) =>
        match OnData w FVoxelData.EndGet .Data_EndGet with
        | .error e => .error e
        | .ok w => .ok (Material, w)
  | .ok (false, w) =>
    .ok (default, UE_LOG w .Error "Get material: Not in world: (%d, %d, %d)"
      [Position.X, Position.Y, Position.Z])

/-- The member function `AVoxelWorld::SetValue`. -/
def SetValue (w : AVoxelWorld F M) (Position : FIntVector) (Value : F) :
    Except Fault (AVoxelWorld F M) :=
  match IsInWorld w Position with
  | .error e => .error e
  | .ok (true, w) =>
    match OnData w FVoxelData.BeginSet .Data_BeginSet with
    | .error e => .error e
    | .ok w =>
      match OnData w (fun d => d.SetValue Position.X Position.Y Position.Z Value)
          (.Data_SetValue Position.X Position.Y Position.Z Value) with
      | .error e => .error e
      | .ok w => OnData w FVoxelData.EndSet .Data_EndSet
  | .ok (false, w) =>
    .ok (UE_LOG w .Error "Get material: Not in world: (%d, %d, %d)"
      [Position.X, Position.Y, Position.Z])

/-- The member function `AVoxelWorld::SetMaterial`. -/
def SetMaterial (w : AVoxelWorld F M) (Position : FIntVector) (Material : M) :
    Except Fault (AVoxelWorld F M) :=
  match IsInWorld w Position with
  | .error e => .error e
  | .ok (true, w) =>
    match OnData w FVoxelData.BeginSet .Data_BeginSet with
    | .error e => .error e
    | .ok w =>
      match OnData w (fun d => d.SetMaterial Position.X Position.Y Position.Z Material)
          (.Data_SetMaterial Position.X Position.Y Position.Z Material) with
      | .error e => .error e
      | .ok w => OnData w FVoxelData.EndSet .Data_EndSet
  | .ok (false, w) =>
    .ok (UE_LOG w .Error "Set material: Not in world: (%d, %d, %d)"
      [Position.X, Position.Y, Position.Z])

/-- The member function `AVoxelWorld::GetSave`; the out-parameter is the first component
of the result. -/
def GetSave (env : Engine F M) (w : AVoxelWorld F M) :
    Except Fault (FVoxelWorldSave F M × AVoxelWorld F M) :=
  AskData w env.GetSave .Data_GetSave

/-- The member function `AVoxelWorld::UpdateChunksAtPosition`. -/
def UpdateChunksAtPosition (w : AVoxelWorld F M) (Position : FIntVector) (bAsync : Bool) :
    Except Fault (AVoxelWorld F M) :=
  OnRender w (.Render_UpdateChunksAtPosition Position bAsync)

/-- The member function `AVoxelWorld::UpdateAll`. -/
def UpdateAll (w : AVoxelWorld F M) (bAsync : Bool) : Except Fault (AVoxelWorld F M) :=
  OnRender w (.Render_UpdateAll bAsync)

/-- The member function `AVoxelWorld::AddInvoker`; an invoker is known by a number. -/
def AddInvoker (w : AVoxelWorld F M) (Invoker : Nat) : Except Fault (AVoxelWorld F M) :=
  OnRender w (.Render_AddInvoker Invoker)

/-- The call `Data->LoadFromSaveAndGetModifiedPositions(Save, ModifiedPositions, bReset)`;
the out-parameter `ModifiedPositions`, in the order a range-for visits it, is the first
component of the result. -/
def Data_LoadFromSaveAndGetModifiedPositions (env : Engine F M) (w : AVoxelWorld F M)
    (Save : FVoxelWorldSave F M) (bReset : Bool) :
    Except Fault (List FIntVector × AVoxelWorld F M) :=
  match w.Data with
  | none => .error (.NullDeref "Data")
  | some d =>
    .ok ((env.LoadFromSaveAndGetModifiedPositions d Save bReset).2,
      { w with
        Data := some
          { d with Overrides := (env.LoadFromSaveAndGetModifiedPositions d Save bReset).1 },
        Calls := w.Calls ++ [.Data_LoadFromSaveAndGetModifiedPositions Save bReset] })

/-- The range-for statement `for (auto Position : Positions) Body(Position);`. -/
def ForEach (Body : AVoxelWorld F M → FIntVector → Except Fault (AVoxelWorld F M))
    (w : AVoxelWorld F M) : List FIntVector → Except Fault (AVoxelWorld F M)
  | [] => .ok w
  | Position :: rest =>
    match Body w Position with
    | .error e => .error e
    | .ok w => ForEach Body w rest

/-- The member function `AVoxelWorld::LoadFromSave`. -/
def LoadFromSave (env : Engine F M) (w : AVoxelWorld F M) (Save : FVoxelWorldSave F M)
    (bReset : Bool) : Except Fault (AVoxelWorld F M) :=
  if Save.Depth = w.Depth then
    match Data_LoadFromSaveAndGetModifiedPositions env w Save bReset with
    | .error e => .error e
    | .ok (ModifiedPositions, w) =>
      match ForEach (fun w Position => UpdateChunksAtPosition w Position true) w
          ModifiedPositions with
      | .error e => .error e
      | .ok w => OnRender w .Render_ApplyUpdates
  else
    .ok (UE_LOG w .Error "LoadFromSave: Current Depth is %d while Save one is %d"
      [w.Depth, Save.Depth])

/-- The member function `AVoxelWorld::GetDepthAt`. -/
def GetDepthAt (env : Engine F M) (w : AVoxelWorld F M) (Position : FIntVector) :
    Except Fault (Int × AVoxelWorld F M) :=
  match IsInWorld w Position with
  | .error e => .error e
  | .ok (true, w) =>
    match OnRender w (.Render_GetDepthAt Position) with
    | .error e => .error e
    | .ok w1 => .ok (env.GetDepthAt w.Calls Position, w1)
  | .ok (false, w) =>
    .ok (0, UE_LOG w .Error "GetDepthAt: Not in world: (%d, %d, %d)"
      [Position.X, Position.Y, Position.Z])

/-- The member function `AVoxelWorld::CreateWorld`. -/
def CreateWorld (env : Engine F M) (w : AVoxelWorld F M) (bLoadFromSave : Bool) :
    Except Fault (AVoxelWorld F M) :=
  if IsCreated w then .error (.Check "!IsCreated()") else
  let w := UE_LOG w .Warning "Loading world" []
  let w := { w with Depth := w.NewDepth }
  let w := { w with VoxelSize := w.NewVoxelSize }
  let w := w.Record .SetActorScale3D_OneVector
  if w.Data.isSome then .error (.Check "!Data") else
  if w.Render.isSome then .error (.Check "!Render") else
  let w :=
    if (match w.InstancedWorldGenerator with
        | none => true
        | some g => g.Class != env.ClassGetClass w.WorldGenerator) then
      let w := AVoxelWorld.Record
        { w with InstancedWorldGenerator := env.NewObject w.WorldGenerator }
        (.NewObject w.WorldGenerator)
      if w.InstancedWorldGenerator.isNone then
        let w := UE_LOG w .Error "Invalid world generator" []
        AVoxelWorld.Record
          { w with InstancedWorldGenerator := env.NewObject UFlatWorldGenerator.StaticClass }
          (.NewObject UFlatWorldGenerator.StaticClass)
      else w
    else w
  match w.InstancedWorldGenerator with
  | none => .error (.NullDeref "InstancedWorldGenerator")
  | some g =>
    let w := w.Record .Generator_SetVoxelWorld
    let w := AVoxelWorld.Record { w with Data := some (FVoxelData.New w.Depth g) }
      (.Data_New w.Depth)
    let w := AVoxelWorld.Record
      { w with Render := some ⟨w.MeshThreadCount, w.FoliageThreadCount⟩ }
      (.Render_New w.MeshThreadCount w.FoliageThreadCount)
    if bLoadFromSave && decide (w.WorldSave.Depth = w.Depth) then
      match Data_LoadFromSaveAndGetModifiedPositions env w w.WorldSave false with
      | .error e => .error e
      | .ok (_, w) => .ok { w with bIsCreated := true }
    else
      .ok { w with bIsCreated := true }

/-- The member function `AVoxelWorld::DestroyWorld`. -/
def DestroyWorld (w : AVoxelWorld F M) : Except Fault (AVoxelWorld F M) :=
  if !IsCreated w then .error (.Check "IsCreated()") else
  let w := UE_LOG w .Warning "Unloading world" []
  if w.Data.isNone then .error (.Check "Data") else
  if w.Render.isNone then .error (.Check "Render") else
  let w := w.Record .Data_Delete
  let w := w.Record .Render_Destroy
  let w := w.Record .Render_Delete
  let w := { w with Data := none }
  let w := { w with Render := none }
  .ok { w with bIsCreated := false }

/-- The member function `AVoxelWorld::DestroyInEditor`. -/
def DestroyInEditor (w : AVoxelWorld F M) : Except Fault (AVoxelWorld F M) :=
  if IsCreated w then DestroyWorld w else .ok w

/-- The member function `AVoxelWorld::BeginPlay`; `CreateWorld()` is called with the
default argument of its declaration. -/
def BeginPlay (env : Engine F M) (w : AVoxelWorld F M) : Except Fault (AVoxelWorld F M) :=
  let w := w.Record .Super_BeginPlay
  match (if !IsCreated w then CreateWorld env w env.CreateWorld_bLoadFromSave else .ok w) with
  | .error e => .error e
  | .ok w => .ok { w with bComputeCollisions := true }

/-- The member function `AVoxelWorld::Tick`. -/
def Tick (w : AVoxelWorld F M) (DeltaTime : F) : Except Fault (AVoxelWorld F M) :=
  let w := w.Record (.Super_Tick DeltaTime)
  if IsCreated w then OnRender w (.Render_Tick DeltaTime) else .ok w

/-! ## Sequences of calls on the actor -/

/-- A call of a member function on the actor, with its arguments. -/
inductive Op (F M : Type) where
  | CreateWorld (bLoadFromSave : Bool)
  | DestroyWorld
  | DestroyInEditor
  | BeginPlay
  | Tick (DeltaTime : F)
  | GetValue (Position : FIntVector)
  | GetMaterial (Position : FIntVector)
  | SetValue (Position : FIntVector) (Value : F)
  | SetMaterial (Position : FIntVector) (Material : M)
  | GetSave
  | LoadFromSave (Save : FVoxelWorldSave F M) (bReset : Bool)
  | UpdateChunksAtPosition (Position : FIntVector) (bAsync : Bool)
  | UpdateAll (bAsync : Bool)
  | AddInvoker (Invoker : Nat)
  | GetDepthAt (Position : FIntVector)

/-- The actor after one call; the value the call returns is dropped. -/
def Apply [OfNat F 0] [Inhabited M] (env : Engine F M) (w : AVoxelWorld F M) :
    Op F M → Except Fault (AVoxelWorld F M)
  | .CreateWorld bLoadFromSave => CreateWorld env w bLoadFromSave
  | .DestroyWorld => DestroyWorld w
  | .DestroyInEditor => DestroyInEditor w
  | .BeginPlay => BeginPlay env w
  | .Tick DeltaTime => Tick w DeltaTime
  | .GetValue Position => (GetValue w Position).map Prod.snd
  | .GetMaterial Position => (GetMaterial w Position).map Prod.snd
  | .SetValue Position Value => SetValue w Position Value
  | .SetMaterial Position Material => SetMaterial w Position Material
  | .GetSave => (GetSave env w).map Prod.snd
  | .LoadFromSave Save bReset => LoadFromSave env w Save bReset
  | .UpdateChunksAtPosition Position bAsync => UpdateChunksAtPosition w Position bAsync
  | .UpdateAll bAsync => UpdateAll w bAsync
  | .AddInvoker Invoker => AddInvoker w Invoker
  | .GetDepthAt Position => (GetDepthAt env w Position).map Prod.snd

/-- The actor after a sequence of calls, the first fault ending the run. -/
def Run [OfNat F 0] [Inhabited M] (env : Engine F M) (w : AVoxelWorld F M) :
    List (Op F M) → Except Fault (AVoxelWorld F M)
  | [] => .ok w
  | op :: rest =>
    match Apply env w op with
    | .error e => .error e
    | .ok w => Run env w rest

/-- The calls that take the actor from created to not created. -/
def Op.Destroys : Op F M → Bool
  | .DestroyWorld => true
  | .DestroyInEditor => true
  | _ => false

/-! ## Predicates on actors and on recorded calls -/

/-- The lifecycle invariant: `Data` and `Render` are non-null exactly when the actor is
created. -/
def Lifecycle (w : AVoxelWorld F M) : Prop :=
  w.Data.isSome = w.bIsCreated ∧ w.Render.isSome = w.bIsCreated

instance (w : AVoxelWorld F M) : Decidable (Lifecycle w) := by
  unfold Lifecycle
  exact inferInstance

/-- A point read of a cell of the store. -/
def Call.IsStoreRead : Call F M → Bool
  | .Data_GetValueAndMaterial _ _ _ => true
  | _ => false

/-- A point write of a cell of the store. -/
def Call.IsStoreWrite : Call F M → Bool
  | .Data_SetValue _ _ _ _ => true
  | .Data_SetMaterial _ _ _ _ => true
  | _ => false

/-- The store's load. -/
def Call.IsLoad : Call F M → Bool
  | .Data_LoadFromSaveAndGetModifiedPositions _ _ => true
  | _ => false

/-- An error written to the log. -/
def Call.IsErrorLog : Call F M → Bool
  | .Log .Error _ _ => true
  | _ => false

/-- The `bAsync` argument of a chunk-update request; `none` for every other call. -/
def Call.UpdateAsync : Call F M → Option Bool
  | .Render_UpdateChunksAtPosition _ bAsync => some bAsync
  | _ => none

/-- The position of a chunk-update request; `none` for every other call. -/
def Call.UpdatePosition : Call F M → Option FIntVector
  | .Render_UpdateChunksAtPosition Position _ => some Position
  | _ => none

/-- Scans a sequence of calls with the numbers of open read and write scopes: a read of
cells needs an open read scope, a write of cells an open write scope, a scope can close
only when one is open.  The result is the numbers of open scopes after the sequence, or
`none` when a call breaks the discipline. -/
def Scopes (Gets Sets : Nat) : List (Call F M) → Option (Nat × Nat)
  | [] => some (Gets, Sets)
  | .Data_BeginGet :: rest => Scopes (Gets + 1) Sets rest
  | .Data_EndGet :: rest => if 0 < Gets then Scopes (Gets - 1) Sets rest else none
  | .Data_BeginSet :: rest => Scopes Gets (Sets + 1) rest
  | .Data_EndSet :: rest => if 0 < Sets then Scopes Gets (Sets - 1) rest else none
  | c :: rest =>
    if c.IsStoreRead && decide (Gets = 0) then none
    else if c.IsStoreWrite && decide (Sets = 0) then none
    else Scopes Gets Sets rest

/-- An opening of a read scope. -/
def Call.IsBeginGet : Call F M → Bool
  | .Data_BeginGet => true
  | _ => false

/-- A closing of a read scope. -/
def Call.IsEndGet : Call F M → Bool
  | .Data_EndGet => true
  | _ => false

/-- An opening of a write scope. -/
def Call.IsBeginSet : Call F M → Bool
  | .Data_BeginSet => true
  | _ => false

/-- A closing of a write scope. -/
def Call.IsEndSet : Call F M → Bool
  | .Data_EndSet => true
  | _ => false

/-- The call `Render->ApplyUpdates()`. -/
def Call.IsApplyUpdates : Call F M → Bool
  | .Render_ApplyUpdates => true
  | _ => false

/-- The calls recorded between the actor `w` and the later actor `w1`. -/
def NewCalls (w w1 : AVoxelWorld F M) : List (Call F M) :=
  w1.Calls.drop w.Calls.length

/-- The numbers of open read and write scopes of the store, `none` without a store. -/
def OpenScopes (w : AVoxelWorld F M) : Option (Nat × Nat) :=
  w.Data.map (fun d => (d.OpenGets, d.OpenSets))

/-- The calls made between `w` and `w1` keep the scope discipline, open and close `Gets`
read scopes and `Sets` write scopes, and leave as many scopes open as there were. -/
def Bracketed (w w1 : AVoxelWorld F M) (Gets Sets : Nat) : Prop :=
  Scopes 0 0 (NewCalls w w1) = some (0, 0)
    ∧ (NewCalls w w1).countP Call.IsBeginGet = Gets
    ∧ (NewCalls w w1).countP Call.IsEndGet = Gets
    ∧ (NewCalls w w1).countP Call.IsBeginSet = Sets
    ∧ (NewCalls w w1).countP Call.IsEndSet = Sets
    ∧ OpenScopes w1 = OpenScopes w

/-- The calls that can take the actor from not created to created. -/
def Op.Creates : Op F M → Bool
  | .CreateWorld _ => true
  | .BeginPlay => true
  | _ => false

/-- The part of the actor the lifecycle and depth properties speak about: the created
flag, whether `Data` and `Render` are non-null, `Depth` and `VoxelSize`. -/
def Shape (w : AVoxelWorld F M) : Bool × Bool × Bool × Int × F :=
  (w.bIsCreated, w.Data.isSome, w.Render.isSome, w.Depth, w.VoxelSize)

/-- A generator of the flat class: solid below height 2, empty from there on. -/
def Sample.Flat : UVoxelWorldGenerator ℚ ℕ :=
  { Class := UFlatWorldGenerator.StaticClass
    Generate := fun _ _ Z => (if Z < 2 then 1 else -1, 0) }

/-- An engine that can instantiate the flat class only, writes the cells of a save in
front of the cells of the store and reports the positions of the save. -/
def Sample.Env : Engine ℚ ℕ :=
  { NewObject := fun c => if c = UFlatWorldGenerator.StaticClass then some Sample.Flat else none
    ClassGetClass := fun _ => ⟨"Class"⟩
    LoadFromSaveAndGetModifiedPositions := fun d Save bReset =>
      (Save.Overrides ++ (if bReset then [] else d.Overrides), Save.Overrides.map Prod.fst)
    GetSave := fun d => ⟨d.Depth, d.Overrides⟩
    GetDepthAt := fun _ _ => 0
    CreateWorld_bLoadFromSave := true }

/-- A constructed actor whose configured depth is 2 and whose generator class cannot be
instantiated. -/
def Sample.Fresh : AVoxelWorld ℚ ℕ :=
  { AVoxelWorld.New 0 0 ⟨5, []⟩ with NewDepth := 2, WorldGenerator := ⟨"Missing"⟩ }

/-- A created actor of depth 2 (side 4) over the flat generator, without recorded calls. -/
def Sample.World : AVoxelWorld ℚ ℕ :=
  { Sample.Fresh with
    bIsCreated := true
    Depth := 2
    VoxelSize := 100
    Data := some (FVoxelData.New 2 Sample.Flat)
    Render := some ⟨4, 4⟩
    InstancedWorldGenerator := some Sample.Flat }

/-- A save of depth 2 with one written cell. -/
def Sample.Save : FVoxelWorldSave ℚ ℕ :=
  ⟨2, [(⟨1, 2, 3⟩, -1, 7)]⟩

/-! ## Closed forms of the member functions -/

theorem created_has_data_and_render (w : AVoxelWorld F M) (hc : IsCreated w = true)
    (hl : Lifecycle w) : ∃ d r, w.Data = some d ∧ w.Render = some r := by
  obtain ⟨hd, hr⟩ := hl
  simp only [IsCreated] at hc
  rw [hc] at hd hr
  obtain ⟨d, hd⟩ := Option.isSome_iff_exists.mp hd
  obtain ⟨r, hr⟩ := Option.isSome_iff_exists.mp hr
  exact ⟨d, r, hd, hr⟩

theorem IsInWorld_answer (w : AVoxelWorld F M) (P : FIntVector) (b : Bool)
    (h : (IsInWorld w P).map Prod.fst = .ok b) :
    ∃ d, w.Data = some d ∧ d.IsInWorld P.X P.Y P.Z = b := by
  cases hd : w.Data with
  | none => simp [IsInWorld, AskData, hd, Except.map] at h
  | some d =>
    refine ⟨d, rfl, ?_⟩
    simpa [IsInWorld, AskData, hd, Except.map] using h

theorem begin_end_get (d : FVoxelData F M) : d.BeginGet.EndGet = d := by
  cases d
  simp [FVoxelData.BeginGet, FVoxelData.EndGet]

theorem begin_end_set (d : FVoxelData F M) : d.BeginSet.EndSet = d := by
  cases d
  simp [FVoxelData.BeginSet, FVoxelData.EndSet]

theorem get_in_read_scope (d : FVoxelData F M) (X Y Z : Int) :
    d.BeginGet.GetValueAndMaterial X Y Z = d.GetValueAndMaterial X Y Z := rfl

theorem GetValue_inside [OfNat F 0] (w : AVoxelWorld F M) (P : FIntVector)
    (d : FVoxelData F M) (hd : w.Data = some d) (hin : d.IsInWorld P.X P.Y P.Z = true) :
    GetValue w P = .ok ((d.GetValueAndMaterial P.X P.Y P.Z).1,
      { w with Calls := w.Calls ++ [.Data_IsInWorld P.X P.Y P.Z, .Data_BeginGet,
          .Data_GetValueAndMaterial P.X P.Y P.Z, .Data_EndGet] }) := by
  cases w
  simp only at hd
  subst hd
  simp [GetValue, IsInWorld, AskData, OnData, AVoxelWorld.Record, hin, begin_end_get,
    get_in_read_scope]

theorem GetValue_outside [OfNat F 0] (w : AVoxelWorld F M) (P : FIntVector)
    (d : FVoxelData F M) (hd : w.Data = some d) (hout : d.IsInWorld P.X P.Y P.Z = false) :
    GetValue w P = .ok (0,
      { w with Calls := w.Calls ++ [.Data_IsInWorld P.X P.Y P.Z,
          .Log .Error "Get value: Not in world: (%d, %d, %d)" [P.X, P.Y, P.Z]] }) := by
  simp [GetValue, IsInWorld, AskData, AVoxelWorld.Record, UE_LOG, hd, hout]

theorem GetMaterial_inside [Inhabited M] (w : AVoxelWorld F M) (P : FIntVector)
    (d : FVoxelData F M) (hd : w.Data = some d) (hin : d.IsInWorld P.X P.Y P.Z = true) :
    GetMaterial w P = .ok ((d.GetValueAndMaterial P.X P.Y P.Z).2,
      { w with Calls := w.Calls ++ [.Data_IsInWorld P.X P.Y P.Z, .Data_BeginGet,
          .Data_GetValueAndMaterial P.X P.Y P.Z, .Data_EndGet] }) := by
  cases w
  simp only at hd
  subst hd
  simp [GetMaterial, IsInWorld, AskData, OnData, AVoxelWorld.Record, hin, begin_end_get,
    get_in_read_scope]

theorem GetMaterial_outside [Inhabited M] (w : AVoxelWorld F M) (P : FIntVector)
    (d : FVoxelData F M) (hd : w.Data = some d) (hout : d.IsInWorld P.X P.Y P.Z = false) :
    GetMaterial w P = .ok (default,
      { w with Calls := w.Calls ++ [.Data_IsInWorld P.X P.Y P.Z,
          .Log .Error "Get material: Not in world: (%d, %d, %d)" [P.X, P.Y, P.Z]] }) := by
  simp [GetMaterial, IsInWorld, AskData, AVoxelWorld.Record, UE_LOG, hd, hout]

theorem set_value_in_write_scope (d : FVoxelData F M) (X Y Z : Int) (v : F) :
    (d.BeginSet.SetValue X Y Z v).EndSet = d.SetValue X Y Z v := by
  cases d
  simp [FVoxelData.BeginSet, FVoxelData.EndSet, FVoxelData.SetValue,
    FVoxelData.GetValueAndMaterial]

theorem set_material_in_write_scope (d : FVoxelData F M) (X Y Z : Int) (m : M) :
    (d.BeginSet.SetMaterial X Y Z m).EndSet = d.SetMaterial X Y Z m := by
  cases d
  simp [FVoxelData.BeginSet, FVoxelData.EndSet, FVoxelData.SetMaterial,
    FVoxelData.GetValueAndMaterial]

theorem SetValue_inside (w : AVoxelWorld F M) (P : FIntVector) (v : F)
    (d : FVoxelData F M) (hd : w.Data = some d) (hin : d.IsInWorld P.X P.Y P.Z = true) :
    SetValue w P v = .ok
      { w with
        Data := some (d.SetValue P.X P.Y P.Z v)
        Calls := w.Calls ++ [.Data_IsInWorld P.X P.Y P.Z, .Data_BeginSet,
          .Data_SetValue P.X P.Y P.Z v, .Data_EndSet] } := by
  simp [SetValue, IsInWorld, AskData, OnData, AVoxelWorld.Record, hd, hin,
    set_value_in_write_scope]

theorem SetValue_outside (w : AVoxelWorld F M) (P : FIntVector) (v : F)
    (d : FVoxelData F M) (hd : w.Data = some d) (hout : d.IsInWorld P.X P.Y P.Z = false) :
    SetValue w P v = .ok
      { w with Calls := w.Calls ++ [.Data_IsInWorld P.X P.Y P.Z,
          .Log .Error "Get material: Not in world: (%d, %d, %d)" [P.X, P.Y, P.Z]] } := by
  simp [SetValue, IsInWorld, AskData, AVoxelWorld.Record, UE_LOG, hd, hout]

theorem SetMaterial_inside (w : AVoxelWorld F M) (P : FIntVector) (m : M)
    (d : FVoxelData F M) (hd : w.Data = some d) (hin : d.IsInWorld P.X P.Y P.Z = true) :
    SetMaterial w P m = .ok
      { w with
        Data := some (d.SetMaterial P.X P.Y P.Z m)
        Calls := w.Calls ++ [.Data_IsInWorld P.X P.Y P.Z, .Data_BeginSet,
          .Data_SetMaterial P.X P.Y P.Z m, .Data_EndSet] } := by
  simp [SetMaterial, IsInWorld, AskData, OnData, AVoxelWorld.Record, hd, hin,
    set_material_in_write_scope]

theorem SetMaterial_outside (w : AVoxelWorld F M) (P : FIntVector) (m : M)
    (d : FVoxelData F M) (hd : w.Data = some d) (hout : d.IsInWorld P.X P.Y P.Z = false) :
    SetMaterial w P m = .ok
      { w with Calls := w.Calls ++ [.Data_IsInWorld P.X P.Y P.Z,
          .Log .Error "Set material: Not in world: (%d, %d, %d)" [P.X, P.Y, P.Z]] } := by
  simp [SetMaterial, IsInWorld, AskData, AVoxelWorld.Record, UE_LOG, hd, hout]

theorem GetDepthAt_outside (env : Engine F M) (w : AVoxelWorld F M) (P : FIntVector)
    (d : FVoxelData F M) (hd : w.Data = some d) (hout : d.IsInWorld P.X P.Y P.Z = false) :
    GetDepthAt env w P = .ok (0,
      { w with Calls := w.Calls ++ [.Data_IsInWorld P.X P.Y P.Z,
          .Log .Error "GetDepthAt: Not in world: (%d, %d, %d)" [P.X, P.Y, P.Z]] }) := by
  simp [GetDepthAt, IsInWorld, AskData, AVoxelWorld.Record, UE_LOG, hd, hout]

theorem UpdateChunksAtPosition_ok (w : AVoxelWorld F M) (r : FVoxelRender)
    (hr : w.Render = some r) (P : FIntVector) (b : Bool) :
    UpdateChunksAtPosition w P b = .ok
      { w with Calls := w.Calls ++ [.Render_UpdateChunksAtPosition P b] } := by
  simp [UpdateChunksAtPosition, OnRender, hr, AVoxelWorld.Record]

theorem ForEach_update (w : AVoxelWorld F M) (r : FVoxelRender) (hr : w.Render = some r)
    (b : Bool) (Positions : List FIntVector) :
    ForEach (fun w Position => UpdateChunksAtPosition w Position b) w Positions = .ok
      { w with Calls := w.Calls ++
          Positions.map (fun Position => .Render_UpdateChunksAtPosition Position b) } := by
  induction Positions generalizing w with
  | nil => simp [ForEach]
  | cons Position rest ih =>
    simp only [ForEach]
    rw [UpdateChunksAtPosition_ok w r hr]
    simp only []
    rw [ih { w with Calls := w.Calls ++ [.Render_UpdateChunksAtPosition Position b] } hr]
    simp

theorem LoadFromSave_same_depth (env : Engine F M) (w : AVoxelWorld F M)
    (Save : FVoxelWorldSave F M) (bReset : Bool) (d : FVoxelData F M) (r : FVoxelRender)
    (hd : w.Data = some d) (hr : w.Render = some r) (heq : Save.Depth = w.Depth) :
    LoadFromSave env w Save bReset = .ok
      { w with
        Data := some
          { d with Overrides := (env.LoadFromSaveAndGetModifiedPositions d Save bReset).1 }
        Calls := w.Calls ++ [.Data_LoadFromSaveAndGetModifiedPositions Save bReset] ++
          (env.LoadFromSaveAndGetModifiedPositions d Save bReset).2.map
            (fun Position => .Render_UpdateChunksAtPosition Position true) ++
          [.Render_ApplyUpdates] } := by
  have h := ForEach_update
    { w with
      Data := some
        { d with Overrides := (env.LoadFromSaveAndGetModifiedPositions d Save bReset).1 }
      Calls := w.Calls ++ [.Data_LoadFromSaveAndGetModifiedPositions Save bReset] }
    r hr true (env.LoadFromSaveAndGetModifiedPositions d Save bReset).2
  simp only [LoadFromSave, heq, if_true, Data_LoadFromSaveAndGetModifiedPositions, hd]
  rw [h]
  simp [OnRender, hr, AVoxelWorld.Record]

theorem LoadFromSave_other_depth (env : Engine F M) (w : AVoxelWorld F M)
    (Save : FVoxelWorldSave F M) (bReset : Bool) (hne : Save.Depth ≠ w.Depth) :
    LoadFromSave env w Save bReset = .ok
      { w with Calls := w.Calls ++
          [.Log .Error "LoadFromSave: Current Depth is %d while Save one is %d"
            [w.Depth, Save.Depth]] } := by
  simp [LoadFromSave, hne, UE_LOG, AVoxelWorld.Record]

theorem CreateWorld_facts (env : Engine F M) (w w1 : AVoxelWorld F M) (b : Bool)
    (h : CreateWorld env w b = .ok w1) :
    w.bIsCreated = false ∧ w.Data = none ∧ w.Render = none ∧
    ∃ g seg,
      w1 = { w with
              bIsCreated := true
              Depth := w.NewDepth
              VoxelSize := w.NewVoxelSize
              InstancedWorldGenerator := some g
              Render := some ⟨w.MeshThreadCount, w.FoliageThreadCount⟩
              Data := some
                (if b = true ∧ w.WorldSave.Depth = w.NewDepth then
                  { FVoxelData.New w.NewDepth g with
                    Overrides := (env.LoadFromSaveAndGetModifiedPositions
                      (FVoxelData.New w.NewDepth g) w.WorldSave false).1 }
                else FVoxelData.New w.NewDepth g)
              Calls := w.Calls ++ seg }
      ∧ seg.countP Call.IsLoad = (if b = true ∧ w.WorldSave.Depth = w.NewDepth then 1 else 0)
      ∧ ((match w.InstancedWorldGenerator with
          | none => true
          | some g0 => g0.Class != env.ClassGetClass w.WorldGenerator) = true →
          env.NewObject w.WorldGenerator = none →
          env.NewObject UFlatWorldGenerator.StaticClass = some g
            ∧ seg.countP Call.IsErrorLog = 1) := by
  rcases w with ⟨ND, DD, bCT, bIC, FF, LF, NVS, MTC, FTC, R, D, G, bCC, WG, bR, Dp, VS, WS, C⟩
  rcases bIC with _ | _
  swap
  · simp [CreateWorld, IsCreated] at h
  rcases D with _ | d
  swap
  · simp [CreateWorld, IsCreated, UE_LOG, AVoxelWorld.Record] at h
  rcases R with _ | r
  swap
  · simp [CreateWorld, IsCreated, UE_LOG, AVoxelWorld.Record] at h
  refine ⟨rfl, rfl, rfl, ?_⟩
  rcases G with _ | g0
  · by_cases hs : WS.Depth = ND <;>
    rcases hn : env.NewObject WG with _ | g1 <;>
    rcases hf : env.NewObject UFlatWorldGenerator.StaticClass with _ | g2 <;>
    rcases b with _ | _ <;>
    simp [CreateWorld, IsCreated, UE_LOG, AVoxelWorld.Record, hn, hf, hs,
      Data_LoadFromSaveAndGetModifiedPositions] at h ⊢ <;>
    subst h <;>
    first
      | exact ⟨_, _, rfl⟩
      | (refine ⟨_, _, rfl, ?_⟩; simp [Call.IsLoad, Call.IsErrorLog])
  · by_cases hs : WS.Depth = ND <;>
    rcases hn : env.NewObject WG with _ | g1 <;>
    rcases hf : env.NewObject UFlatWorldGenerator.StaticClass with _ | g2 <;>
    rcases b with _ | _ <;>
    by_cases hc : g0.Class = env.ClassGetClass WG <;>
    simp [CreateWorld, IsCreated, UE_LOG, AVoxelWorld.Record, hn, hf, hs, hc,
      Data_LoadFromSaveAndGetModifiedPositions] at h ⊢ <;>
    subst h <;>
    first
      | exact ⟨_, _, rfl⟩
      | (refine ⟨_, _, rfl, ?_⟩; simp [Call.IsLoad, Call.IsErrorLog])

theorem CreateWorld_returns (env : Engine F M) (w : AVoxelWorld F M) (b : Bool)
    (flat : UVoxelWorldGenerator F M) (hnc : w.bIsCreated = false) (hd : w.Data = none)
    (hr : w.Render = none)
    (hflat : env.NewObject UFlatWorldGenerator.StaticClass = some flat) :
    ∃ w1, CreateWorld env w b = .ok w1 := by
  rcases w with ⟨ND, DD, bCT, bIC, FF, LF, NVS, MTC, FTC, R, D, G, bCC, WG, bR, Dp, VS, WS, C⟩
  simp only at hnc hd hr
  subst hnc hd hr
  rcases G with _ | g0
  · by_cases hs : WS.Depth = ND <;>
    rcases hn : env.NewObject WG with _ | g1 <;>
    rcases b with _ | _ <;>
    simp [CreateWorld, IsCreated, UE_LOG, AVoxelWorld.Record, hn, hflat, hs,
      Data_LoadFromSaveAndGetModifiedPositions]
  · by_cases hs : WS.Depth = ND <;>
    rcases hn : env.NewObject WG with _ | g1 <;>
    rcases b with _ | _ <;>
    by_cases hc : g0.Class = env.ClassGetClass WG <;>
    simp [CreateWorld, IsCreated, UE_LOG, AVoxelWorld.Record, hn, hflat, hs, hc,
      Data_LoadFromSaveAndGetModifiedPositions]

theorem CreateWorld_created (env : Engine F M) (w : AVoxelWorld F M) (b : Bool)
    (hc : w.bIsCreated = true) : CreateWorld env w b = .error (.Check "!IsCreated()") := by
  simp [CreateWorld, IsCreated, hc]

theorem DestroyWorld_created (w : AVoxelWorld F M) (d : FVoxelData F M) (r : FVoxelRender)
    (hc : w.bIsCreated = true) (hd : w.Data = some d) (hr : w.Render = some r) :
    DestroyWorld w = .ok
      { w with
        Data := none
        Render := none
        bIsCreated := false
        Calls := w.Calls ++ [.Log .Warning "Unloading world" [], .Data_Delete,
          .Render_Destroy, .Render_Delete] } := by
  simp [DestroyWorld, IsCreated, UE_LOG, AVoxelWorld.Record, hc, hd, hr]

theorem DestroyWorld_facts (w w1 : AVoxelWorld F M) (h : DestroyWorld w = .ok w1) :
    w.bIsCreated = true ∧ w1.bIsCreated = false ∧ w1.Data = none ∧ w1.Render = none
      ∧ w1.Depth = w.Depth ∧ w1.VoxelSize = w.VoxelSize := by
  rcases w with ⟨ND, DD, bCT, bIC, FF, LF, NVS, MTC, FTC, R, D, G, bCC, WG, bR, Dp, VS, WS, C⟩
  rcases bIC with _ | _ <;> rcases D with _ | d <;> rcases R with _ | r <;>
  simp [DestroyWorld, IsCreated, UE_LOG, AVoxelWorld.Record] at h ⊢
  subst h
  simp

/-! ## What a call leaves as it is -/

theorem map_snd_ok {α β : Type} (x : Except Fault (α × β)) (b : β)
    (h : x.map Prod.snd = .ok b) : ∃ a, x = .ok (a, b) := by
  rcases x with e | ⟨a, b1⟩
  · simp [Except.map] at h
  · simp only [Except.map, Except.ok.injEq] at h
    exact ⟨a, by rw [h]⟩

theorem GetValue_shape [OfNat F 0] (w w1 : AVoxelWorld F M) (P : FIntVector) (v : F)
    (h : GetValue w P = .ok (v, w1)) : Shape w1 = Shape w := by
  cases hd : w.Data with
  | none => simp [GetValue, IsInWorld, AskData, hd] at h
  | some d =>
    cases hin : d.IsInWorld P.X P.Y P.Z with
    | true =>
      rw [GetValue_inside w P d hd hin] at h
      simp only [Except.ok.injEq, Prod.mk.injEq] at h
      rw [← h.2]
      rfl
    | false =>
      rw [GetValue_outside w P d hd hin] at h
      simp only [Except.ok.injEq, Prod.mk.injEq] at h
      rw [← h.2]
      rfl

theorem GetMaterial_shape [Inhabited M] (w w1 : AVoxelWorld F M) (P : FIntVector) (m : M)
    (h : GetMaterial w P = .ok (m, w1)) : Shape w1 = Shape w := by
  cases hd : w.Data with
  | none => simp [GetMaterial, IsInWorld, AskData, hd] at h
  | some d =>
    cases hin : d.IsInWorld P.X P.Y P.Z with
    | true =>
      rw [GetMaterial_inside w P d hd hin] at h
      simp only [Except.ok.injEq, Prod.mk.injEq] at h
      rw [← h.2]
      rfl
    | false =>
      rw [GetMaterial_outside w P d hd hin] at h
      simp only [Except.ok.injEq, Prod.mk.injEq] at h
      rw [← h.2]
      rfl

theorem SetValue_shape (w w1 : AVoxelWorld F M) (P : FIntVector) (v : F)
    (h : SetValue w P v = .ok w1) : Shape w1 = Shape w := by
  cases hd : w.Data with
  | none => simp [SetValue, IsInWorld, AskData, hd] at h
  | some d =>
    cases hin : d.IsInWorld P.X P.Y P.Z with
    | true =>
      rw [SetValue_inside w P v d hd hin] at h
      simp only [Except.ok.injEq] at h
      rw [← h]
      simp [Shape, hd]
    | false =>
      rw [SetValue_outside w P v d hd hin] at h
      simp only [Except.ok.injEq] at h
      rw [← h]
      rfl

theorem SetMaterial_shape (w w1 : AVoxelWorld F M) (P : FIntVector) (m : M)
    (h : SetMaterial w P m = .ok w1) : Shape w1 = Shape w := by
  cases hd : w.Data with
  | none => simp [SetMaterial, IsInWorld, AskData, hd] at h
  | some d =>
    cases hin : d.IsInWorld P.X P.Y P.Z with
    | true =>
      rw [SetMaterial_inside w P m d hd hin] at h
      simp only [Except.ok.injEq] at h
      rw [← h]
      simp [Shape, hd]
    | false =>
      rw [SetMaterial_outside w P m d hd hin] at h
      simp only [Except.ok.injEq] at h
      rw [← h]
      rfl

theorem GetSave_shape (env : Engine F M) (w w1 : AVoxelWorld F M) (sv : FVoxelWorldSave F M)
    (h : GetSave env w = .ok (sv, w1)) : Shape w1 = Shape w := by
  cases hd : w.Data with
  | none => simp [GetSave, AskData, hd] at h
  | some d =>
    simp only [GetSave, AskData, hd, AVoxelWorld.Record, Except.ok.injEq, Prod.mk.injEq] at h
    rw [← h.2]
    simp [Shape, hd]

theorem OnRender_shape (w w1 : AVoxelWorld F M) (c : Call F M)
    (h : OnRender w c = .ok w1) : Shape w1 = Shape w := by
  cases hr : w.Render with
  | none => simp [OnRender, hr] at h
  | some r =>
    simp only [OnRender, hr, AVoxelWorld.Record, Except.ok.injEq] at h
    rw [← h]
    simp [Shape, hr]

theorem LoadFromSave_shape (env : Engine F M) (w w1 : AVoxelWorld F M)
    (Save : FVoxelWorldSave F M) (bReset : Bool)
    (h : LoadFromSave env w Save bReset = .ok w1) : Shape w1 = Shape w := by
  by_cases heq : Save.Depth = w.Depth
  · cases hd : w.Data with
    | none =>
      simp [LoadFromSave, heq, Data_LoadFromSaveAndGetModifiedPositions, hd] at h
    | some d =>
      cases hr : w.Render with
      | none =>
        have hf := ForEach_update
          { w with
            Data := some
              { d with
                Overrides := (env.LoadFromSaveAndGetModifiedPositions d Save bReset).1 }
            Calls := w.Calls ++ [.Data_LoadFromSaveAndGetModifiedPositions Save bReset] }
        simp only [LoadFromSave, heq, if_true, Data_LoadFromSaveAndGetModifiedPositions,
          hd] at h
        cases hm : (env.LoadFromSaveAndGetModifiedPositions d Save bReset).2 with
        | nil => simp [hm, ForEach, OnRender, hr] at h
        | cons P rest => simp [hm, ForEach, UpdateChunksAtPosition, OnRender, hr] at h
      | some r =>
        rw [LoadFromSave_same_depth env w Save bReset d r hd hr heq] at h
        simp only [Except.ok.injEq] at h
        rw [← h]
        simp [Shape, hd]
  · rw [LoadFromSave_other_depth env w Save bReset heq] at h
    simp only [Except.ok.injEq] at h
    rw [← h]
    rfl

theorem GetDepthAt_shape (env : Engine F M) (w w1 : AVoxelWorld F M) (P : FIntVector)
    (n : Int) (h : GetDepthAt env w P = .ok (n, w1)) : Shape w1 = Shape w := by
  cases hd : w.Data with
  | none => simp [GetDepthAt, IsInWorld, AskData, hd] at h
  | some d =>
    cases hin : d.IsInWorld P.X P.Y P.Z with
    | true =>
      cases hr : w.Render with
      | none => simp [GetDepthAt, IsInWorld, AskData, OnRender, AVoxelWorld.Record, hd, hin, hr] at h
      | some r =>
        simp only [GetDepthAt, IsInWorld, AskData, OnRender, AVoxelWorld.Record, hd, hin, hr,
          Except.ok.injEq, Prod.mk.injEq] at h
        rw [← h.2]
        simp [Shape, hd, hr]
    | false =>
      rw [GetDepthAt_outside env w P d hd hin] at h
      simp only [Except.ok.injEq, Prod.mk.injEq] at h
      rw [← h.2]
      rfl

theorem Tick_shape (w w1 : AVoxelWorld F M) (dt : F) (h : Tick w dt = .ok w1) :
    Shape w1 = Shape w := by
  unfold Tick at h
  simp only [] at h
  split_ifs at h
  · exact OnRender_shape (w.Record (.Super_Tick dt)) _ _ h
  · simp only [Except.ok.injEq] at h
    rw [← h]
    rfl

theorem Shape_eq (w w1 : AVoxelWorld F M) (h : Shape w1 = Shape w) :
    w1.bIsCreated = w.bIsCreated ∧ w1.Data.isSome = w.Data.isSome
      ∧ w1.Render.isSome = w.Render.isSome ∧ w1.Depth = w.Depth
      ∧ w1.VoxelSize = w.VoxelSize := by
  simpa [Shape] using h

theorem Lifecycle_of_shape (w w1 : AVoxelWorld F M) (h : Shape w1 = Shape w)
    (hl : Lifecycle w) : Lifecycle w1 := by
  obtain ⟨h1, h2, h3, _, _⟩ := Shape_eq w w1 h
  unfold Lifecycle at hl ⊢
  rw [h1, h2, h3]
  exact hl

theorem Apply_shape [OfNat F 0] [Inhabited M] (env : Engine F M) (w w1 : AVoxelWorld F M)
    (op : Op F M) (hc : op.Creates = false) (hd : op.Destroys = false)
    (h : Apply env w op = .ok w1) : Shape w1 = Shape w := by
  cases op with
  | CreateWorld b => simp [Op.Creates] at hc
  | DestroyWorld => simp [Op.Destroys] at hd
  | DestroyInEditor => simp [Op.Destroys] at hd
  | BeginPlay => simp [Op.Creates] at hc
  | Tick dt => exact Tick_shape w w1 dt h
  | GetValue P =>
    obtain ⟨v, hv⟩ := map_snd_ok _ _ h
    exact GetValue_shape w w1 P v hv
  | GetMaterial P =>
    obtain ⟨m, hm⟩ := map_snd_ok _ _ h
    exact GetMaterial_shape w w1 P m hm
  | SetValue P v => exact SetValue_shape w w1 P v h
  | SetMaterial P m => exact SetMaterial_shape w w1 P m h
  | GetSave =>
    obtain ⟨sv, hs⟩ := map_snd_ok _ _ h
    exact GetSave_shape env w w1 sv hs
  | LoadFromSave Save bReset => exact LoadFromSave_shape env w w1 Save bReset h
  | UpdateChunksAtPosition P b => exact OnRender_shape w w1 _ h
  | UpdateAll b => exact OnRender_shape w w1 _ h
  | AddInvoker i => exact OnRender_shape w w1 _ h
  | GetDepthAt P =>
    obtain ⟨n, hn⟩ := map_snd_ok _ _ h
    exact GetDepthAt_shape env w w1 P n hn

theorem DestroyInEditor_facts (w w1 : AVoxelWorld F M) (h : DestroyInEditor w = .ok w1) :
    (w.bIsCreated = true ∧ DestroyWorld w = .ok w1) ∨ (w.bIsCreated = false ∧ w1 = w) := by
  unfold DestroyInEditor IsCreated at h
  split_ifs at h with hc
  · exact Or.inl ⟨hc, h⟩
  · simp only [Except.ok.injEq] at h
    exact Or.inr ⟨by simpa using hc, h.symm⟩

theorem BeginPlay_facts (env : Engine F M) (w w1 : AVoxelWorld F M)
    (h : BeginPlay env w = .ok w1) :
    (w.bIsCreated = true ∧ Shape w1 = Shape w) ∨
    (w.bIsCreated = false ∧ ∃ w2,
      CreateWorld env (w.Record .Super_BeginPlay) env.CreateWorld_bLoadFromSave = .ok w2
        ∧ Shape w1 = Shape w2) := by
  unfold BeginPlay at h
  simp only [IsCreated, AVoxelWorld.Record] at h
  cases hc : w.bIsCreated with
  | true =>
    left
    simp only [hc, Bool.not_true, Bool.false_eq_true, if_false, Except.ok.injEq] at h
    refine ⟨rfl, ?_⟩
    rw [← h]
    simp [Shape, hc]
  | false =>
    right
    simp only [hc, Bool.not_false, if_true] at h
    refine ⟨rfl, ?_⟩
    split at h
    · simp at h
    · rename_i w2 hw2
      simp only [Except.ok.injEq] at h
      refine ⟨w2, by simpa [AVoxelWorld.Record, hc] using hw2, ?_⟩
      rw [← h]
      rfl

theorem CreateWorld_lifecycle (env : Engine F M) (w w1 : AVoxelWorld F M) (b : Bool)
    (h : CreateWorld env w b = .ok w1) : Lifecycle w1 ∧ w1.bIsCreated = true := by
  obtain ⟨_, _, _, g, seg, hw, _⟩ := CreateWorld_facts env w w1 b h
  rw [hw]
  simp [Lifecycle]

theorem Apply_lifecycle [OfNat F 0] [Inhabited M] (env : Engine F M)
    (w w1 : AVoxelWorld F M) (op : Op F M) (hl : Lifecycle w)
    (h : Apply env w op = .ok w1) : Lifecycle w1 := by
  cases op with
  | CreateWorld b => exact (CreateWorld_lifecycle env w w1 b h).1
  | DestroyWorld =>
    obtain ⟨_, h1, h2, h3, _⟩ := DestroyWorld_facts w w1 h
    simp [Lifecycle, h1, h2, h3]
  | DestroyInEditor =>
    rcases DestroyInEditor_facts w w1 h with ⟨_, hd⟩ | ⟨_, he⟩
    · obtain ⟨_, h1, h2, h3, _⟩ := DestroyWorld_facts w w1 hd
      simp [Lifecycle, h1, h2, h3]
    · rw [he]
      exact hl
  | BeginPlay =>
    rcases BeginPlay_facts env w w1 h with ⟨_, hs⟩ | ⟨_, w2, hw2, hs⟩
    · exact Lifecycle_of_shape w w1 hs hl
    · exact Lifecycle_of_shape w2 w1 hs (CreateWorld_lifecycle env _ w2 _ hw2).1
  | Tick dt => exact Lifecycle_of_shape w w1 (Apply_shape env w w1 (.Tick dt) rfl rfl h) hl
  | GetValue P => exact Lifecycle_of_shape w w1 (Apply_shape env w w1 (.GetValue P) rfl rfl h) hl
  | GetMaterial P => exact Lifecycle_of_shape w w1 (Apply_shape env w w1 (.GetMaterial P) rfl rfl h) hl
  | SetValue P v => exact Lifecycle_of_shape w w1 (Apply_shape env w w1 (.SetValue P v) rfl rfl h) hl
  | SetMaterial P m => exact Lifecycle_of_shape w w1 (Apply_shape env w w1 (.SetMaterial P m) rfl rfl h) hl
  | GetSave => exact Lifecycle_of_shape w w1 (Apply_shape env w w1 .GetSave rfl rfl h) hl
  | LoadFromSave Save bReset =>
    exact Lifecycle_of_shape w w1 (Apply_shape env w w1 (.LoadFromSave Save bReset) rfl rfl h) hl
  | UpdateChunksAtPosition P b =>
    exact Lifecycle_of_shape w w1
      (Apply_shape env w w1 (.UpdateChunksAtPosition P b) rfl rfl h) hl
  | UpdateAll b => exact Lifecycle_of_shape w w1 (Apply_shape env w w1 (.UpdateAll b) rfl rfl h) hl
  | AddInvoker i => exact Lifecycle_of_shape w w1 (Apply_shape env w w1 (.AddInvoker i) rfl rfl h) hl
  | GetDepthAt P => exact Lifecycle_of_shape w w1 (Apply_shape env w w1 (.GetDepthAt P) rfl rfl h) hl

theorem Run_lifecycle [OfNat F 0] [Inhabited M] (env : Engine F M) (ops : List (Op F M))
    (w w1 : AVoxelWorld F M) (hl : Lifecycle w) (h : Run env w ops = .ok w1) :
    Lifecycle w1 := by
  induction ops generalizing w with
  | nil =>
    simp only [Run, Except.ok.injEq] at h
    rw [← h]
    exact hl
  | cons op rest ih =>
    simp only [Run] at h
    split at h
    · simp at h
    · rename_i w2 hw2
      exact ih w2 (Apply_lifecycle env w w2 op hl hw2) h

theorem Apply_depth [OfNat F 0] [Inhabited M] (env : Engine F M) (w w1 : AVoxelWorld F M)
    (op : Op F M) (hc : op.Creates = false) (h : Apply env w op = .ok w1) :
    w1.Depth = w.Depth ∧ w1.VoxelSize = w.VoxelSize := by
  cases hd : op.Destroys with
  | false =>
    obtain ⟨_, _, _, h4, h5⟩ := Shape_eq w w1 (Apply_shape env w w1 op hc hd h)
    exact ⟨h4, h5⟩
  | true =>
    cases op with
    | DestroyWorld =>
      obtain ⟨_, _, _, _, h4, h5⟩ := DestroyWorld_facts w w1 h
      exact ⟨h4, h5⟩
    | DestroyInEditor =>
      rcases DestroyInEditor_facts w w1 h with ⟨_, hd⟩ | ⟨_, he⟩
      · obtain ⟨_, _, _, _, h4, h5⟩ := DestroyWorld_facts w w1 hd
        exact ⟨h4, h5⟩
      · rw [he]
        exact ⟨rfl, rfl⟩
    | _ => simp [Op.Destroys] at hd

theorem Apply_stays_created [OfNat F 0] [Inhabited M] (env : Engine F M)
    (w w1 : AVoxelWorld F M) (op : Op F M) (hcr : w.bIsCreated = true)
    (hd : op.Destroys = false) (h : Apply env w op = .ok w1) :
    w1.bIsCreated = true ∧ w1.Depth = w.Depth ∧ w1.VoxelSize = w.VoxelSize := by
  cases hc : op.Creates with
  | false =>
    obtain ⟨h1, _, _, h4, h5⟩ := Shape_eq w w1 (Apply_shape env w w1 op hc hd h)
    exact ⟨by rw [h1, hcr], h4, h5⟩
  | true =>
    cases op with
    | CreateWorld b =>
      simp only [Apply] at h
      rw [CreateWorld_created env w b hcr] at h
      simp at h
    | BeginPlay =>
      rcases BeginPlay_facts env w w1 h with ⟨_, hs⟩ | ⟨hn, _⟩
      · obtain ⟨h1, _, _, h4, h5⟩ := Shape_eq w w1 hs
        exact ⟨by rw [h1, hcr], h4, h5⟩
      · rw [hcr] at hn
        simp at hn
    | _ => simp [Op.Creates] at hc

theorem Run_stays_created [OfNat F 0] [Inhabited M] (env : Engine F M)
    (ops : List (Op F M)) (w w1 : AVoxelWorld F M) (hcr : w.bIsCreated = true)
    (hd : ∀ op ∈ ops, op.Destroys = false) (h : Run env w ops = .ok w1) :
    w1.bIsCreated = true ∧ w1.Depth = w.Depth ∧ w1.VoxelSize = w.VoxelSize := by
  induction ops generalizing w with
  | nil =>
    simp only [Run, Except.ok.injEq] at h
    rw [← h]
    exact ⟨hcr, rfl, rfl⟩
  | cons op rest ih =>
    simp only [Run] at h
    split at h
    · simp at h
    · rename_i w2 hw2
      obtain ⟨h1, h2, h3⟩ := Apply_stays_created env w w2 op hcr
        (hd op (List.mem_cons_self op rest)) hw2
      obtain ⟨k1, k2, k3⟩ := ih w2 h1
        (fun o ho => hd o (List.mem_cons_of_mem op ho)) h
      exact ⟨k1, by rw [k2, h2], by rw [k3, h3]⟩

theorem NewCalls_append (w w1 : AVoxelWorld F M) (seg : List (Call F M))
    (h : w1.Calls = w.Calls ++ seg) : NewCalls w w1 = seg := by
  simp [NewCalls, h]

/-! ## The claims -/

/-- C1: when `IsInWorld` answers false for a position, `GetValue` returns 0, `GetMaterial`
returns the default material, `GetDepthAt` returns 0 and `SetValue`/`SetMaterial` return;
each of the five leaves every member of the actor, the store included, as it was and adds
exactly two calls to the record: the bounds query and one error written to the log.  So no
scope is opened, nothing is written to the store and the renderer is not asked.  (An
answer of `IsInWorld` needs a store, which every created actor has.) -/
theorem C1_out_of_bounds_rejected [OfNat F 0] [Inhabited M] (env : Engine F M)
    (w : AVoxelWorld F M) (Position : FIntVector) (Value : F) (Material : M)
    (hout : (IsInWorld w Position).map Prod.fst = .ok false) :
    GetValue w Position = .ok (0,
        { w with Calls := w.Calls ++ [.Data_IsInWorld Position.X Position.Y Position.Z,
            .Log .Error "Get value: Not in world: (%d, %d, %d)"
              [Position.X, Position.Y, Position.Z]] })
      ∧ GetMaterial w Position = .ok (default,
        { w with Calls := w.Calls ++ [.Data_IsInWorld Position.X Position.Y Position.Z,
            .Log .Error "Get material: Not in world: (%d, %d, %d)"
              [Position.X, Position.Y, Position.Z]] })
      ∧ SetValue w Position Value = .ok
        { w with Calls := w.Calls ++ [.Data_IsInWorld Position.X Position.Y Position.Z,
            .Log .Error "Get material: Not in world: (%d, %d, %d)"
              [Position.X, Position.Y, Position.Z]] }
      ∧ SetMaterial w Position Material = .ok
        { w with Calls := w.Calls ++ [.Data_IsInWorld Position.X Position.Y Position.Z,
            .Log .Error "Set material: Not in world: (%d, %d, %d)"
              [Position.X, Position.Y, Position.Z]] }
      ∧ GetDepthAt env w Position = .ok (0,
        { w with Calls := w.Calls ++ [.Data_IsInWorld Position.X Position.Y Position.Z,
            .Log .Error "GetDepthAt: Not in world: (%d, %d, %d)"
              [Position.X, Position.Y, Position.Z]] }) := by
  obtain ⟨d, hd, hf⟩ := IsInWorld_answer w Position false hout
  exact ⟨GetValue_outside w Position d hd hf, GetMaterial_outside w Position d hd hf,
    SetValue_outside w Position Value d hd hf, SetMaterial_outside w Position Material d hd hf,
    GetDepthAt_outside env w Position d hd hf⟩

/-- C1 at the created sample actor (side 4) and the position (4, 1, 1). -/
theorem C1_out_of_bounds_rejected_witness :
    (IsInWorld Sample.World ⟨4, 1, 1⟩).map Prod.fst = .ok false
      ∧ GetValue Sample.World ⟨4, 1, 1⟩ = .ok (0,
        { Sample.World with Calls := [.Data_IsInWorld 4 1 1,
            .Log .Error "Get value: Not in world: (%d, %d, %d)" [4, 1, 1]] }) :=
  ⟨rfl, (C1_out_of_bounds_rejected Sample.Env Sample.World ⟨4, 1, 1⟩ 5 7 rfl).1⟩

/-- C2: a save whose `Depth` differs from the actor's is not applied.  `LoadFromSave`, for
either `bReset`, returns with every member of the actor, the store included, as it was and
adds one call to the record, the error written to the log: the store's load is not called,
no chunk update is requested, `ApplyUpdates` is not called.  And whenever `CreateWorld`
returns and `WorldSave.Depth` differs from the `Depth` it has set, none of the calls it
made is the store's load and `Data` is the freshly built store. -/
theorem C2_depth_mismatch_not_applied (env : Engine F M) (w : AVoxelWorld F M)
    (Save : FVoxelWorldSave F M) (bReset : Bool) (hne : Save.Depth ≠ w.Depth) :
    LoadFromSave env w Save bReset = .ok
        { w with Calls := w.Calls ++
            [.Log .Error "LoadFromSave: Current Depth is %d while Save one is %d"
              [w.Depth, Save.Depth]] }
      ∧ ∀ (v : AVoxelWorld F M) (bLoadFromSave : Bool) (v1 : AVoxelWorld F M),
          CreateWorld env v bLoadFromSave = .ok v1 → v.WorldSave.Depth ≠ v1.Depth →
          (NewCalls v v1).countP Call.IsLoad = 0
            ∧ ∃ g, v1.InstancedWorldGenerator = some g
                ∧ v1.Data = some (FVoxelData.New v1.Depth g) := by
  refine ⟨LoadFromSave_other_depth env w Save bReset hne, ?_⟩
  intro v b v1 hv hdepth
  obtain ⟨_, _, _, g, seg, hw, hload, _⟩ := CreateWorld_facts env v v1 b hv
  have hD : v1.Depth = v.NewDepth := by rw [hw]
  have hC : v1.Calls = v.Calls ++ seg := by rw [hw]
  rw [hD] at hdepth
  rw [NewCalls_append v v1 seg hC, hload]
  refine ⟨by simp [hdepth], g, by rw [hw], ?_⟩
  rw [hw]
  simp [hdepth]

/-- C2 at the created sample actor of depth 2 and an empty save of depth 3, and at the
constructed sample actor, whose save has depth 5 and whose configured depth is 2. -/
theorem C2_depth_mismatch_not_applied_witness :
    (3 : Int) ≠ Sample.World.Depth
      ∧ LoadFromSave Sample.Env Sample.World ⟨3, []⟩ true = .ok
        { Sample.World with Calls :=
            [.Log .Error "LoadFromSave: Current Depth is %d while Save one is %d" [2, 3]] }
      ∧ ∃ w1, CreateWorld Sample.Env Sample.Fresh true = .ok w1
          ∧ (NewCalls Sample.Fresh w1).countP Call.IsLoad = 0 := by
  have h := C2_depth_mismatch_not_applied Sample.Env Sample.World ⟨3, []⟩ true (by decide)
  obtain ⟨w1, hrun⟩ := CreateWorld_returns Sample.Env Sample.Fresh true Sample.Flat
    rfl rfl rfl rfl
  have hD : w1.Depth = 2 := by
    obtain ⟨_, _, _, g, seg, hw, _⟩ := CreateWorld_facts Sample.Env Sample.Fresh w1 true hrun
    rw [hw]
    rfl
  refine ⟨by decide, h.1, w1, hrun, (h.2 Sample.Fresh true w1 hrun ?_).1⟩
  rw [hD]
  decide

/-- C3: write visibility.  When `IsInWorld` answers true for a position, `SetValue` with a
value returns and `GetValue` on the actor it leaves returns that value; `SetMaterial` with
a material returns and `GetMaterial` on the actor it leaves returns that material. -/
theorem C3_write_visibility [OfNat F 0] [Inhabited M] (w : AVoxelWorld F M)
    (Position : FIntVector) (Value : F) (Material : M)
    (hin : (IsInWorld w Position).map Prod.fst = .ok true) :
    (∃ w1 w2, SetValue w Position Value = .ok w1 ∧ GetValue w1 Position = .ok (Value, w2))
      ∧ ∃ w1 w2, SetMaterial w Position Material = .ok w1
          ∧ GetMaterial w1 Position = .ok (Material, w2) := by
  obtain ⟨d, hd, ht⟩ := IsInWorld_answer w Position true hin
  constructor
  · have h1 := SetValue_inside w Position Value d hd ht
    have h2 := GetValue_inside
      { w with
        Data := some (d.SetValue Position.X Position.Y Position.Z Value)
        Calls := w.Calls ++ [.Data_IsInWorld Position.X Position.Y Position.Z, .Data_BeginSet,
          .Data_SetValue Position.X Position.Y Position.Z Value, .Data_EndSet] }
      Position (d.SetValue Position.X Position.Y Position.Z Value) rfl
      (by simpa [FVoxelData.IsInWorld, FVoxelData.SetValue, FVoxelData.Size] using ht)
    have hv : ((d.SetValue Position.X Position.Y Position.Z Value).GetValueAndMaterial
        Position.X Position.Y Position.Z).1 = Value := by
      simp [FVoxelData.GetValueAndMaterial, FVoxelData.SetValue, FVoxelData.Find]
    rw [hv] at h2
    exact ⟨_, _, h1, h2⟩
  · have h1 := SetMaterial_inside w Position Material d hd ht
    have h2 := GetMaterial_inside
      { w with
        Data := some (d.SetMaterial Position.X Position.Y Position.Z Material)
        Calls := w.Calls ++ [.Data_IsInWorld Position.X Position.Y Position.Z, .Data_BeginSet,
          .Data_SetMaterial Position.X Position.Y Position.Z Material, .Data_EndSet] }
      Position (d.SetMaterial Position.X Position.Y Position.Z Material) rfl
      (by simpa [FVoxelData.IsInWorld, FVoxelData.SetMaterial, FVoxelData.Size] using ht)
    have hv : ((d.SetMaterial Position.X Position.Y Position.Z Material).GetValueAndMaterial
        Position.X Position.Y Position.Z).2 = Material := by
      simp [FVoxelData.GetValueAndMaterial, FVoxelData.SetMaterial, FVoxelData.Find]
    rw [hv] at h2
    exact ⟨_, _, h1, h2⟩

/-- C3 at the created sample actor, the position (1, 1, 1), value 5 and material 7. -/
theorem C3_write_visibility_witness :
    (IsInWorld Sample.World ⟨1, 1, 1⟩).map Prod.fst = .ok true
      ∧ ∃ w1 w2, SetValue Sample.World ⟨1, 1, 1⟩ 5 = .ok w1
          ∧ GetValue w1 ⟨1, 1, 1⟩ = .ok (5, w2) :=
  ⟨rfl, (C3_write_visibility Sample.World ⟨1, 1, 1⟩ 5 7 rfl).1⟩

/-- C4, as stated, fails: on the created sample actor of depth 2, `LoadFromSave` with the
sample save of depth 2 returns after three calls, the store's load, a chunk update for
(1, 2, 3) whose `bAsync` is true, and `ApplyUpdates`; so not every request it forwards
carries `bAsync = false`. -/
theorem C4_counterexample :
    (IsCreated Sample.World = true ∧ Lifecycle Sample.World
        ∧ Sample.Save.Depth = Sample.World.Depth)
      ∧ (∃ w1, LoadFromSave Sample.Env Sample.World Sample.Save false = .ok w1
          ∧ NewCalls Sample.World w1 =
            [.Data_LoadFromSaveAndGetModifiedPositions Sample.Save false,
              .Render_UpdateChunksAtPosition ⟨1, 2, 3⟩ true, .Render_ApplyUpdates])
      ∧ ¬ ∀ w1, LoadFromSave Sample.Env Sample.World Sample.Save false = .ok w1 →
          ∀ c ∈ NewCalls Sample.World w1, ∀ b, c.UpdateAsync = some b → b = false := by
  have hrun := LoadFromSave_same_depth Sample.Env Sample.World Sample.Save false
    (FVoxelData.New 2 Sample.Flat) ⟨4, 4⟩ rfl rfl rfl
  refine ⟨⟨rfl, by decide, rfl⟩, ⟨_, hrun, rfl⟩, ?_⟩
  intro h
  have hb := h _ hrun (.Render_UpdateChunksAtPosition ⟨1, 2, 3⟩ true)
    (by simp [NewCalls, Sample.World, Sample.Fresh, AVoxelWorld.New, Sample.Env, Sample.Save])
    true rfl
  exact Bool.noConfusion hb

/-- C4, amended: for a created actor and a save with `Save.Depth = Depth`, `LoadFromSave`
returns, every chunk-update request among the calls it made carries `bAsync = true`, and
the last call it made is `Render->ApplyUpdates()`, which comes after all requests. -/
theorem C4_updates_async_then_applied (env : Engine F M) (w : AVoxelWorld F M)
    (Save : FVoxelWorldSave F M) (bReset : Bool) (hc : IsCreated w = true)
    (hl : Lifecycle w) (heq : Save.Depth = w.Depth) :
    ∃ w1, LoadFromSave env w Save bReset = .ok w1
      ∧ (∀ c ∈ NewCalls w w1, ∀ b, c.UpdateAsync = some b → b = true)
      ∧ (NewCalls w w1).getLast? = some .Render_ApplyUpdates
      ∧ (NewCalls w w1).dropLast.countP Call.IsApplyUpdates = 0 := by
  obtain ⟨d, r, hd, hr⟩ := created_has_data_and_render w hc hl
  refine ⟨_, LoadFromSave_same_depth env w Save bReset d r hd hr heq, ?_⟩
  rw [NewCalls_append w _
    ([.Data_LoadFromSaveAndGetModifiedPositions Save bReset] ++
      (env.LoadFromSaveAndGetModifiedPositions d Save bReset).2.map
        (fun Position => .Render_UpdateChunksAtPosition Position true) ++
      [.Render_ApplyUpdates]) (by simp)]
  refine ⟨?_, ?_, ?_⟩
  · intro c hmem b hb
    simp only [List.mem_append, List.mem_singleton, List.mem_map] at hmem
    rcases hmem with (rfl | ⟨P, _, rfl⟩) | rfl
    · simp [Call.UpdateAsync] at hb
    · simpa [Call.UpdateAsync] using hb.symm
    · simp [Call.UpdateAsync] at hb
  · rw [List.getLast?_concat]
  · rw [List.dropLast_concat]
    simp [List.countP_append, List.countP_map, Call.IsApplyUpdates, List.countP_eq_zero]

/-- C4, amended, at the created sample actor and the sample save. -/
theorem C4_updates_async_then_applied_witness :
    (IsCreated Sample.World = true ∧ Lifecycle Sample.World
        ∧ Sample.Save.Depth = Sample.World.Depth)
      ∧ ∃ w1, LoadFromSave Sample.Env Sample.World Sample.Save true = .ok w1
          ∧ (∀ c ∈ NewCalls Sample.World w1, ∀ b, c.UpdateAsync = some b → b = true)
          ∧ (NewCalls Sample.World w1).getLast? = some .Render_ApplyUpdates
          ∧ (NewCalls Sample.World w1).dropLast.countP Call.IsApplyUpdates = 0 :=
  ⟨⟨rfl, by decide, rfl⟩,
    C4_updates_async_then_applied Sample.Env Sample.World Sample.Save true rfl
      (by decide) rfl⟩

/-- C5: for a created actor and a save with `Save.Depth = Depth`, `LoadFromSave` returns and
the calls it made are, in this order: the store's load with the given save and `bReset`,
once; one chunk-update request for each element of the list of modified positions the
load returned, in list order; `Render->ApplyUpdates()`, once.  So the positions requested
are exactly that list, and with an empty list the calls are the load and `ApplyUpdates`.
The store after the call holds the cells the load produced. -/
theorem C5_load_update_apply (env : Engine F M) (w : AVoxelWorld F M)
    (Save : FVoxelWorldSave F M) (bReset : Bool) (hc : IsCreated w = true)
    (hl : Lifecycle w) (heq : Save.Depth = w.Depth) :
    ∃ d w1, w.Data = some d ∧ LoadFromSave env w Save bReset = .ok w1
      ∧ NewCalls w w1 =
          [.Data_LoadFromSaveAndGetModifiedPositions Save bReset] ++
            (env.LoadFromSaveAndGetModifiedPositions d Save bReset).2.map
              (fun Position => .Render_UpdateChunksAtPosition Position true) ++
            [.Render_ApplyUpdates]
      ∧ (NewCalls w w1).filterMap Call.UpdatePosition =
          (env.LoadFromSaveAndGetModifiedPositions d Save bReset).2
      ∧ (NewCalls w w1).countP Call.IsLoad = 1
      ∧ (NewCalls w w1).countP Call.IsApplyUpdates = 1
      ∧ ((env.LoadFromSaveAndGetModifiedPositions d Save bReset).2 = [] →
          NewCalls w w1 =
            [.Data_LoadFromSaveAndGetModifiedPositions Save bReset, .Render_ApplyUpdates])
      ∧ w1.Data = some
          { d with Overrides := (env.LoadFromSaveAndGetModifiedPositions d Save bReset).1 } := by
  obtain ⟨d, r, hd, hr⟩ := created_has_data_and_render w hc hl
  refine ⟨d, _, hd, LoadFromSave_same_depth env w Save bReset d r hd hr heq, ?_⟩
  rw [NewCalls_append w _
    ([.Data_LoadFromSaveAndGetModifiedPositions Save bReset] ++
      (env.LoadFromSaveAndGetModifiedPositions d Save bReset).2.map
        (fun Position => .Render_UpdateChunksAtPosition Position true) ++
      [.Render_ApplyUpdates]) (by simp)]
  refine ⟨rfl, ?_, ?_, ?_, ?_, rfl⟩
  · simp [List.filterMap_append, List.filterMap_map, Call.UpdatePosition, Function.comp_def]
  · simp [List.countP_append, List.countP_map, Call.IsLoad, List.countP_eq_zero]
  · simp [List.countP_append, List.countP_map, Call.IsApplyUpdates, List.countP_eq_zero]
  · intro hnil
    simp [hnil]

/-- C5 at the created sample actor and the sample save, whose one cell is at (1, 2, 3). -/
theorem C5_load_update_apply_witness :
    (IsCreated Sample.World = true ∧ Lifecycle Sample.World
        ∧ Sample.Save.Depth = Sample.World.Depth)
      ∧ ∃ w1, LoadFromSave Sample.Env Sample.World Sample.Save true = .ok w1
          ∧ NewCalls Sample.World w1 =
            [.Data_LoadFromSaveAndGetModifiedPositions Sample.Save true,
              .Render_UpdateChunksAtPosition ⟨1, 2, 3⟩ true, .Render_ApplyUpdates] := by
  refine ⟨⟨rfl, by decide, rfl⟩, ?_⟩
  obtain ⟨d, w1, hd, hrun, hcalls, _⟩ :=
    C5_load_update_apply Sample.Env Sample.World Sample.Save true rfl (by decide) rfl
  have hd1 : d = FVoxelData.New 2 Sample.Flat := (Option.some.inj hd).symm
  subst hd1
  exact ⟨w1, hrun, hcalls⟩

/-- C7: on a created actor, for every position, `GetValue`, `GetMaterial`, `SetValue` and
`SetMaterial` return, and the calls each of them made are well bracketed: every read of
cells lies inside an open read scope, every write of cells inside an open write scope, no
scope closes that is not open, all scopes opened by the call are closed by it.  A getter
opens and closes one read scope and no write scope when `IsInWorld` answers true, a setter
one write scope and no read scope; when `IsInWorld` answers false no scope is opened or
closed.  The store has as many open read and write scopes after the call as before. -/
theorem C7_scopes_well_bracketed [OfNat F 0] [Inhabited M] (w : AVoxelWorld F M)
    (Position : FIntVector) (Value : F) (Material : M) (hc : IsCreated w = true)
    (hl : Lifecycle w) :
    ∃ d, w.Data = some d
      ∧ (∃ x w1, GetValue w Position = .ok (x, w1)
          ∧ Bracketed w w1
            (if d.IsInWorld Position.X Position.Y Position.Z then 1 else 0) 0)
      ∧ (∃ x w1, GetMaterial w Position = .ok (x, w1)
          ∧ Bracketed w w1
            (if d.IsInWorld Position.X Position.Y Position.Z then 1 else 0) 0)
      ∧ (∃ w1, SetValue w Position Value = .ok w1
          ∧ Bracketed w w1 0
            (if d.IsInWorld Position.X Position.Y Position.Z then 1 else 0))
      ∧ ∃ w1, SetMaterial w Position Material = .ok w1
          ∧ Bracketed w w1 0
            (if d.IsInWorld Position.X Position.Y Position.Z then 1 else 0) := by
  obtain ⟨d, _, hd, _⟩ := created_has_data_and_render w hc hl
  refine ⟨d, hd, ?_⟩
  cases hin : d.IsInWorld Position.X Position.Y Position.Z with
  | true =>
    refine ⟨⟨_, _, GetValue_inside w Position d hd hin, ?_⟩,
      ⟨_, _, GetMaterial_inside w Position d hd hin, ?_⟩,
      ⟨_, SetValue_inside w Position Value d hd hin, ?_⟩,
      ⟨_, SetMaterial_inside w Position Material d hd hin, ?_⟩⟩ <;>
    unfold Bracketed <;>
    rw [NewCalls_append w _ _ rfl] <;>
    simp [Scopes, Call.IsStoreRead, Call.IsStoreWrite, Call.IsBeginGet, Call.IsEndGet,
      Call.IsBeginSet, Call.IsEndSet, OpenScopes, hd, FVoxelData.SetValue,
      FVoxelData.SetMaterial]
  | false =>
    refine ⟨⟨_, _, GetValue_outside w Position d hd hin, ?_⟩,
      ⟨_, _, GetMaterial_outside w Position d hd hin, ?_⟩,
      ⟨_, SetValue_outside w Position Value d hd hin, ?_⟩,
      ⟨_, SetMaterial_outside w Position Material d hd hin, ?_⟩⟩ <;>
    unfold Bracketed <;>
    rw [NewCalls_append w _ _ rfl] <;>
    simp [Scopes, Call.IsStoreRead, Call.IsStoreWrite, Call.IsBeginGet, Call.IsEndGet,
      Call.IsBeginSet, Call.IsEndSet, OpenScopes, hd]

/-- C7 at the created sample actor and the in-bounds position (1, 1, 1). -/
theorem C7_scopes_well_bracketed_witness :
    (IsCreated Sample.World = true ∧ Lifecycle Sample.World)
      ∧ ∃ w1, SetValue Sample.World ⟨1, 1, 1⟩ 5 = .ok w1 ∧ Bracketed Sample.World w1 0 1 := by
  refine ⟨⟨rfl, by decide⟩, ?_⟩
  obtain ⟨d, hd, _, _, hset, _⟩ :=
    C7_scopes_well_bracketed Sample.World ⟨1, 1, 1⟩ 5 7 rfl (by decide)
  have hd1 : d = FVoxelData.New 2 Sample.Flat := (Option.some.inj hd).symm
  subst hd1
  exact hset

/-- C9: whenever `CreateWorld` returns, `Depth` is `NewDepth`, `VoxelSize` is
`NewVoxelSize` and `Data` is a store of depth `NewDepth`; every call other than
`CreateWorld` and `BeginPlay` (so each of `GetValue`, `GetMaterial`, `SetValue`,
`SetMaterial`, `GetSave`, `LoadFromSave`, `UpdateChunksAtPosition`, `UpdateAll`,
`AddInvoker`, `Tick`, `DestroyWorld`) that returns leaves `Depth` and `VoxelSize` as they
were; `CreateWorld` on a created actor fails its first check; and after every sequence of
calls without `DestroyWorld` and `DestroyInEditor` that runs on a created actor, the actor
is created with `Depth` and `VoxelSize` as they were. -/
theorem C9_depth_fixed_at_creation [OfNat F 0] [Inhabited M] (env : Engine F M)
    (w : AVoxelWorld F M) :
    (∀ b w1, CreateWorld env w b = .ok w1 →
        w1.Depth = w.NewDepth ∧ w1.VoxelSize = w.NewVoxelSize
          ∧ ∃ d, w1.Data = some d ∧ d.Depth = w.NewDepth)
      ∧ (∀ op w1, op.Creates = false → Apply env w op = .ok w1 →
        w1.Depth = w.Depth ∧ w1.VoxelSize = w.VoxelSize)
      ∧ (∀ b, IsCreated w = true → CreateWorld env w b = .error (.Check "!IsCreated()"))
      ∧ ∀ ops w1, IsCreated w = true → (∀ op ∈ ops, op.Destroys = false) →
        Run env w ops = .ok w1 →
        IsCreated w1 = true ∧ w1.Depth = w.Depth ∧ w1.VoxelSize = w.VoxelSize := by
  refine ⟨?_, ?_, ?_, ?_⟩
  · intro b w1 hrun
    obtain ⟨_, _, _, g, seg, hw, _⟩ := CreateWorld_facts env w w1 b hrun
    refine ⟨by rw [hw], by rw [hw], _, by rw [hw], ?_⟩
    split_ifs <;> rfl
  · intro op w1 hcr hrun
    exact Apply_depth env w w1 op hcr hrun
  · intro b hc
    exact CreateWorld_created env w b hc
  · intro ops w1 hc hd hrun
    exact Run_stays_created env ops w w1 hc hd hrun

/-- C9 at the sample actors: creation returns and sets depth 2, and a run of calls on the
created actor returns and keeps depth 2. -/
theorem C9_depth_fixed_at_creation_witness :
    (∃ w1, CreateWorld Sample.Env Sample.Fresh true = .ok w1 ∧ w1.Depth = 2)
      ∧ ∃ w1, Run Sample.Env Sample.World
          [.SetValue ⟨1, 1, 1⟩ 5, .LoadFromSave Sample.Save true, .Tick 1, .BeginPlay] = .ok w1
          ∧ w1.Depth = 2 := by
  constructor
  · obtain ⟨w1, hrun⟩ := CreateWorld_returns Sample.Env Sample.Fresh true Sample.Flat
      rfl rfl rfl rfl
    exact ⟨w1, hrun, ((C9_depth_fixed_at_creation Sample.Env Sample.Fresh).1 true w1 hrun).1⟩
  · have hok : (Run Sample.Env Sample.World
        [.SetValue ⟨1, 1, 1⟩ 5, .LoadFromSave Sample.Save true, .Tick 1, .BeginPlay]).toBool
          = true := rfl
    cases h : Run Sample.Env Sample.World
        [.SetValue ⟨1, 1, 1⟩ 5, .LoadFromSave Sample.Save true, .Tick 1, .BeginPlay] with
    | error e =>
      rw [h] at hok
      exact absurd hok (by simp [Except.toBool])
    | ok w1 =>
      exact ⟨w1, rfl, ((C9_depth_fixed_at_creation Sample.Env Sample.World).2.2.2 _ w1 rfl
        (by decide) h).2.1⟩

/-- C10: after every sequence of calls that runs from the constructed state (of
`CreateWorld`, `DestroyWorld`, `DestroyInEditor`, `BeginPlay`, `Tick`, and of every other
embedded member function), `IsCreated()` is true exactly when `Data` and `Render` are both
non-null and false exactly when both are null.  In such a state `CreateWorld` can fail
only on `check(!IsCreated())` or on a null generator, never on `check(!Data)` or
`check(!Render)`; `DestroyWorld` can fail only on `check(IsCreated())`, never on
`check(Data)` or `check(Render)`; and `Tick` returns, so it dereferences `Render` only
when it is non-null. -/
theorem C10_lifecycle_invariant [OfScientific F] [OfNat F 0] [OfNat F 10] [OfNat F 15]
    [OfNat F 100] [Inhabited M] (env : Engine F M) (Depth : Int) (VoxelSize : F)
    (WorldSave : FVoxelWorldSave F M) (ops : List (Op F M)) (w : AVoxelWorld F M)
    (hrun : Run env (AVoxelWorld.New Depth VoxelSize WorldSave) ops = .ok w) :
    (IsCreated w = true ↔ w.Data.isSome = true ∧ w.Render.isSome = true)
      ∧ (IsCreated w = false ↔ w.Data = none ∧ w.Render = none)
      ∧ (∀ b e, CreateWorld env w b = .error e →
          e = .Check "!IsCreated()" ∨ e = .NullDeref "InstancedWorldGenerator")
      ∧ (∀ e, DestroyWorld w = .error e → e = .Check "IsCreated()")
      ∧ ∀ DeltaTime, ∃ w1, Tick w DeltaTime = .ok w1 := by
  have hl : Lifecycle w :=
    Run_lifecycle env ops (AVoxelWorld.New Depth VoxelSize WorldSave) w
      (by simp [Lifecycle, AVoxelWorld.New]) hrun
  obtain ⟨hd, hr⟩ := hl
  rcases w with ⟨ND, DD, bCT, bIC, FF, LF, NVS, MTC, FTC, R, D, G, bCC, WG, bR, Dp, VS, WS, C⟩
  simp only at hd hr
  rcases bIC with _ | _ <;> rcases D with _ | d <;> rcases R with _ | r <;>
    simp at hd hr
  · refine ⟨by simp [IsCreated], by simp [IsCreated], ?_, ?_, ?_⟩
    · intro b e he
      rcases G with _ | g0 <;>
      rcases hn : env.NewObject WG with _ | g1 <;>
      rcases hf : env.NewObject UFlatWorldGenerator.StaticClass with _ | g2 <;>
      rcases b with _ | _ <;>
      (try by_cases hcl : g0.Class = env.ClassGetClass WG) <;>
      by_cases hs : WS.Depth = ND <;>
      simp_all [CreateWorld, IsCreated, UE_LOG, AVoxelWorld.Record,
        Data_LoadFromSaveAndGetModifiedPositions]
    · intro e he
      simp [DestroyWorld, IsCreated] at he
      exact he.symm
    · intro dt
      simp [Tick, IsCreated, AVoxelWorld.Record]
  · refine ⟨by simp [IsCreated], by simp [IsCreated], ?_, ?_, ?_⟩
    · intro b e he
      simp [CreateWorld, IsCreated] at he
      exact Or.inl he.symm
    · intro e he
      simp [DestroyWorld, IsCreated, UE_LOG, AVoxelWorld.Record] at he
    · intro dt
      simp [Tick, IsCreated, AVoxelWorld.Record, OnRender]

/-- C10 at a run from the constructed state: play begins, a tick, the world is destroyed
in the editor and created again. -/
theorem C10_lifecycle_invariant_witness :
    ∃ w, Run Sample.Env (AVoxelWorld.New 0 0 ⟨5, []⟩)
        [.BeginPlay, .Tick 1, .DestroyInEditor, .CreateWorld true] = .ok w
      ∧ IsCreated w = true ∧ w.Data.isSome = true ∧ w.Render.isSome = true := by
  have hok : (Run Sample.Env (AVoxelWorld.New 0 0 ⟨5, []⟩)
      [.BeginPlay, .Tick 1, .DestroyInEditor, .CreateWorld true]).toBool = true := rfl
  have hcr : ((Run Sample.Env (AVoxelWorld.New 0 0 ⟨5, []⟩)
      [.BeginPlay, .Tick 1, .DestroyInEditor, .CreateWorld true]).map IsCreated).toOption
        = some true := rfl
  cases h : Run Sample.Env (AVoxelWorld.New 0 0 ⟨5, []⟩)
      [.BeginPlay, .Tick 1, .DestroyInEditor, .CreateWorld true] with
  | error e =>
    rw [h] at hok
    exact absurd hok (by simp [Except.toBool])
  | ok w =>
    rw [h] at hcr
    have hc : IsCreated w = true := by simpa [Except.map, Except.toOption] using hcr
    have hinv := (C10_lifecycle_invariant Sample.Env 0 0 ⟨5, []⟩ _ w h).1
    exact ⟨w, rfl, hc, hinv.mp hc⟩

end VoxelWorld
